import Mathlib

/-!
Verification of the semantic indexing and retrieval cache of the Trelby
screenplay editor, as implemented in `trelby/ai_service.py` (class
`AIService`) and `trelby/ai_assistant.py` (class `AIAssistantPanel`).

The Python code is shallowly embedded: the mutable `AIService` /
`AIAssistantPanel` objects become explicit state records threaded through
the functions, the external collaborators (the OpenAI embedding endpoint,
the ChromaDB collection, and Python's process-seeded string `hash`) become
an explicit environment record, and every operation additionally reports
how many Embedding Gateway calls and ChromaDB write operations it issued.
-/

namespace Trelby

/-! ## Python string primitives used by the source

The source uses `str.strip()`, string slicing `s[:n]`, `"\n".join(...)`,
string concatenation and `str(...)` of an int.  We model them structurally
over the character list underlying a Lean `String`.
-/

/-- Characters treated as whitespace by Python's `str.strip()`. -/
def pyWS (c : Char) : Bool :=
  c = ' ' ∨ c = '\t' ∨ c = '\n' ∨ c = '\r' ∨ c = '\x0b' ∨ c = '\x0c'

/-- Python `s.strip()`: drop leading and trailing whitespace. -/
def strip (s : String) : String :=
  ⟨(((s.data.dropWhile pyWS).reverse).dropWhile pyWS).reverse⟩

/-- Python slicing `s[:n]` (by code points). -/
def pyTake (s : String) (n : Nat) : String := ⟨s.data.take n⟩

/-- Python `"\n".join(parts)`. -/
def joinNL : List String → String
  | [] => ""
  | [t] => t
  | t :: ts => t ++ "\n" ++ joinNL ts

/-- The size of the value range of CPython's 64-bit `hash`. -/
def hashRange : Nat := 18446744073709551616

/-- Values of Python's built-in `hash`: some 64-bit quantity.  The hash
function itself is seeded per process, so the model treats it as an
arbitrary function into this finite range (field `pyhash` of `Env`). -/
abbrev HashV := Fin hashRange

/-! ## Data model

A screenplay snapshot is an ordered list of typed lines (`line.lt` is the
element type, `line.lb == LB_LAST` marks the last line of an element,
`line.text` is the raw text), exactly the attributes read by the code. -/

/-- The element types of `trelby.screenplay` read by the AI subsystem
(`SCENE`, `CHARACTER`, `DIALOGUE`, `ACTION`) plus the remaining types,
which the code treats uniformly. -/
inductive LineType where
  | scene
  | character
  | dialogue
  | action
  | paren
  | transition
  | other
deriving DecidableEq, Repr

/-- One line of the screenplay: the attributes `lt`, `lb` (modelled as the
boolean `lb = LB_LAST`) and `text` that the AI subsystem reads. -/
structure Line where
  lt : LineType
  lbLast : Bool
  text : String
deriving DecidableEq, Repr

/-- A document snapshot: the ordered line list `screenplay.lines`. -/
abbrev Screenplay := List Line

/-- An embedding vector. -/
abbrev Vec := List ℚ

/-- The metadata dictionary attached to a chunk.  A `none` / `false` field
models absence of the corresponding key from the Python dict. -/
structure ChunkMetadata where
  type : Option String := none
  scene_number : Option Nat := none
  scene_heading : Option String := none
  line_number : Option Nat := none
  element_type : Option String := none
  has_character : Bool := false
  has_dialogue : Bool := false
  has_action : Bool := false
  total_lines : Option Nat := none
deriving DecidableEq, Repr

/-- A retrieval chunk as produced by `chunk_screenplay_scenes` /
`create_fallback_chunk`: keys `text`, `metadata`, `id`. -/
structure Chunk where
  text : String
  metadata : ChunkMetadata
  id : String
deriving DecidableEq, Repr

/-- One stored tuple of the ChromaDB collection. -/
structure StoredItem where
  id : String
  embedding : Vec
  document : String
  metadata : ChunkMetadata
deriving DecidableEq, Repr

/-- External-side-effect accounting: how many Embedding Gateway calls
(`openai ... embeddings.create`) and how many ChromaDB write operations
(`collection.add` / `collection.delete`) an operation performed. -/
structure Calls where
  embedCalls : Nat := 0
  indexWrites : Nat := 0
deriving DecidableEq, Repr

/-- The environment of external collaborators:
* `pyhash` — Python's built-in `hash` on strings (process-seeded, hence an
  arbitrary fixed function into the 64-bit range);
* `embedFn` — the OpenAI embeddings endpoint; `none` models a raised
  exception or any failure of the batch call;
* `dist` — the distance metric ChromaDB evaluates between a query vector
  and a stored vector;
* `storeQueryFails` — whether `collection.query` raises. -/
structure Env where
  pyhash : String → HashV
  embedFn : List String → Option (List Vec)
  dist : Vec → Vec → ℚ
  storeQueryFails : Bool

/-- The mutable state of an `AIService` object (the fields touched by the
embedding/retrieval path). -/
structure AIServiceState where
  query_embedding_cache : List (HashV × List Vec) := []
  collection : List StoredItem := []
  cached_system_prompt : Option String := none
  cached_semantic_context : Option String := none
  cached_document_context : Option String := none
  last_screenplay_hash : Option HashV := none

/-- The mutable state of the `AIAssistantPanel` (the fields touched by
`ensure_embeddings_up_to_date`). -/
structure PanelState where
  service : AIServiceState := {}
  embeddings_initialized : Bool := false
  current_screenplay_hash : Option HashV := none

/-! ## Chunker — `AIService.chunk_screenplay_scenes` (ai_service.py 110-202)
and `AIService.create_fallback_chunk` (ai_service.py 308-353). -/

/-- The loop state of `chunk_screenplay_scenes`: the accumulated `chunks`
list, the lines of the scene being assembled, its metadata dict, and the
running `scene_number`. -/
structure ChunkAcc where
  chunks : List Chunk := []
  current_scene_text : List String := []
  current_scene_metadata : ChunkMetadata := {}
  scene_number : Nat := 0

/-- Chunk id `f"scene_[n]_[hash(scene_text[:50])]"` (ai_service.py 155). -/
def chunkId (h : String → HashV) (n : Nat) (scene_text : String) : String :=
  "scene_" ++ Nat.repr n ++ "_" ++ Nat.repr (h (pyTake scene_text 50)).val

/-- Flushing the scene under construction (ai_service.py 152-161 inside the
loop and 189-199 after it): if `current_scene_text` is non-empty and its
`"\n"`-join has non-whitespace content, append a chunk for it. -/
def flushScene (h : String → HashV) (acc : ChunkAcc) : List Chunk :=
  if acc.current_scene_text = [] then acc.chunks
  else
    let scene_text := joinNL acc.current_scene_text
    if strip scene_text = "" then acc.chunks
    else acc.chunks ++
      [{ text := scene_text, metadata := acc.current_scene_metadata,
         id := chunkId h acc.scene_number scene_text }]

/-- Metadata flag updates of the non-heading branch (ai_service.py 179-185). -/
def updateFlags (lt : LineType) (m : ChunkMetadata) : ChunkMetadata :=
  if lt = LineType.character then { m with has_character := true }
  else if lt = LineType.dialogue then { m with has_dialogue := true }
  else if lt = LineType.action then { m with has_action := true }
  else m

/-- One iteration of the `chunk_screenplay_scenes` loop over `(i, line)`
(ai_service.py 147-185). -/
def chunkStep (h : String → HashV) (i : Nat) (line : Line) (acc : ChunkAcc) :
    ChunkAcc :=
  if line.lt = LineType.scene ∧ line.lbLast = true then
    { chunks := flushScene h acc
      scene_number := acc.scene_number + 1
      current_scene_text := [line.text]
      current_scene_metadata :=
        { type := some "scene"
          scene_number := some (acc.scene_number + 1)
          scene_heading := some line.text
          line_number := some i
          element_type := some "scene_heading" } }
  else
    { acc with
      current_scene_text := acc.current_scene_text ++ [line.text]
      current_scene_metadata := updateFlags line.lt acc.current_scene_metadata }

/-- The loop of `chunk_screenplay_scenes` over `enumerate(screenplay.lines)`. -/
def chunkLoop (h : String → HashV) : List Line → Nat → ChunkAcc → ChunkAcc
  | [], _, acc => acc
  | l :: ls, i, acc => chunkLoop h ls (i + 1) (chunkStep h i l acc)

/-- `AIService.chunk_screenplay_scenes`: scan the lines in order, starting a
new chunk at each `SCENE`/`LB_LAST` line, then flush the final scene. -/
def chunk_screenplay_scenes (h : String → HashV) (sp : Screenplay) : List Chunk :=
  flushScene h (chunkLoop h sp 0 {})

/-- `AIService.create_fallback_chunk`: a single chunk holding the whole
document, with `scene_number = 1` and heading `"Entire Screenplay"`;
empty if the document text is whitespace-only. -/
def create_fallback_chunk (h : String → HashV) (sp : Screenplay) : List Chunk :=
  let screenplay_text := joinNL (sp.map Line.text)
  if strip screenplay_text = "" then []
  else
    [{ text := screenplay_text
       metadata :=
         { type := some "fallback"
           scene_number := some 1
           scene_heading := some "Entire Screenplay"
           line_number := some 0
           element_type := some "fallback"
           total_lines := some sp.length }
       id := "fallback_" ++ Nat.repr (h (pyTake screenplay_text 100)).val }]

/-- The chunk list actually submitted for storage (ai_service.py 265-272):
the scene chunks, or the fallback chunk when no scene chunk was produced. -/
def chunksForStorage (h : String → HashV) (sp : Screenplay) : List Chunk :=
  let chunks := chunk_screenplay_scenes h sp
  if chunks = [] then create_fallback_chunk h sp else chunks

/-! ## Embedding Gateway and Vector Index wrappers. -/

/-- `AIService.create_embeddings` (ai_service.py 204-233): empty input gives
`[]`; an exception or failure of the batch call also gives `[]`. -/
def create_embeddings (env : Env) (texts : List String) : List Vec :=
  if texts = [] then []
  else
    match env.embedFn texts with
    | none => []
    | some embeddings => embeddings

/-- The content of `screenplay` seen by the minimum-content check
(ai_service.py 254-257): concatenation of `line.text + " "` over all lines
with non-whitespace text. -/
def screenplayTotalText (sp : Screenplay) : String :=
  sp.foldl (fun acc l => if strip l.text = "" then acc else acc ++ l.text ++ " ") ""

/-- Turn the per-chunk data into stored collection tuples, as
`collection.add(embeddings, documents, metadatas, ids)` does. -/
def addedItems (chunks : List Chunk) (embeddings : List Vec) : List StoredItem :=
  (chunks.zip embeddings).map fun ce =>
    { id := ce.1.id, embedding := ce.2, document := ce.1.text,
      metadata := ce.1.metadata }

/-- `AIService.store_screenplay_embeddings` (ai_service.py 235-306):
checks the document size, chunks it, embeds the chunk texts and adds the
result to the collection.  Returns the success flag, the new service state
and the external calls performed. -/
def store_screenplay_embeddings (env : Env) (st : AIServiceState)
    (sp : Screenplay) : Bool × AIServiceState × Calls :=
  if sp.length ≤ 1 then (false, st, {})
  else if (strip (screenplayTotalText sp)).length < 100 then (false, st, {})
  else
    let chunks := chunksForStorage env.pyhash sp
    if chunks = [] then (false, st, {})
    else
      let embeddings := create_embeddings env (chunks.map Chunk.text)
      if embeddings = [] then (false, st, { embedCalls := 1 })
      else if embeddings.length = chunks.length then
        (true, { st with collection := st.collection ++ addedItems chunks embeddings },
         { embedCalls := 1, indexWrites := 1 })
      else
        -- collection.add validates list lengths and raises on mismatch;
        -- the exception is caught and reported as failure, nothing stored.
        (false, st, { embedCalls := 1 })

/-- `AIService.clear_embeddings` (ai_service.py 682-695): delete every
stored id; the delete call is only issued when the collection is
non-empty.  Returns the new state and the number of write operations. -/
def clear_embeddings (st : AIServiceState) : AIServiceState × Nat :=
  ({ st with collection := [] }, if st.collection = [] then 0 else 1)

/-- `AIService.clear_context_cache` (ai_service.py 706-710). -/
def clear_context_cache (st : AIServiceState) : AIServiceState :=
  { st with cached_semantic_context := none, cached_document_context := none }

/-- `AIService.update_screenplay_hash` (ai_service.py 717-724). -/
def update_screenplay_hash (st : AIServiceState) (screenplay_hash : HashV) :
    AIServiceState :=
  if some screenplay_hash = st.last_screenplay_hash then st
  else { clear_context_cache st with last_screenplay_hash := some screenplay_hash }

/-! ## Query cache and retrieval —
`AIService.search_similar_scenes` (ai_service.py 355-405) and
`AIService.get_semantic_context` (ai_service.py 407-450). -/

/-- Lookup in the dict `query_embedding_cache`, keyed by `hash(query)`. -/
def cacheLookup : List (HashV × List Vec) → HashV → Option (List Vec)
  | [], _ => none
  | (k, v) :: rest, qh => if k = qh then some v else cacheLookup rest qh

/-- Lines 370-381 of `search_similar_scenes`: obtain the query embedding
list from the cache, or compute it via `create_embeddings([query])` and
cache it when the computation produced something.  Returns the embedding
list, the new state, and the number of Embedding Gateway calls. -/
def getOrComputeQueryEmbedding (env : Env) (st : AIServiceState)
    (query : String) : List Vec × AIServiceState × Nat :=
  let query_hash := env.pyhash query
  match cacheLookup st.query_embedding_cache query_hash with
  | some query_embeddings => (query_embeddings, st, 0)
  | none =>
      let query_embeddings := create_embeddings env [query]
      if query_embeddings = [] then (query_embeddings, st, 1)
      else
        (query_embeddings,
         { st with query_embedding_cache :=
             (query_hash, query_embeddings) :: st.query_embedding_cache }, 1)

/-- One entry of the ChromaDB query answer: `(document, metadata, distance)`. -/
abbrev SearchEntry := String × ChunkMetadata × ℚ

/-- Ordering of query answers by their distance component. -/
abbrev distLE (a b : SearchEntry) : Prop := a.2.2 ≤ b.2.2

instance : IsTotal SearchEntry distLE := ⟨fun a b => le_total a.2.2 b.2.2⟩

instance : IsTrans SearchEntry distLE := ⟨fun _ _ _ hab hbc => le_trans hab hbc⟩

/-- `collection.query(query_embeddings, n_results)`: ChromaDB evaluates the
distance of the query vector to every stored vector and answers the
`n_results` nearest in ascending distance order. -/
def collectionQuery (dist : Vec → Vec → ℚ) (coll : List StoredItem) (qv : Vec)
    (n_results : Nat) : List SearchEntry :=
  (List.insertionSort distLE
    (coll.map fun it => (it.document, it.metadata, dist qv it.embedding))).take
    n_results

/-- `AIService.search_similar_scenes` (ai_service.py 355-405): obtain the
query embedding (cached or fresh), then query the collection.  Any caught
exception — embedding failure or a raising `collection.query` — yields
`none`.  Returns the result, the new state and the Embedding Gateway call
count. -/
def search_similar_scenes (env : Env) (st : AIServiceState) (query : String)
    (n_results : Nat) : Option (List SearchEntry) × AIServiceState × Nat :=
  let r := getOrComputeQueryEmbedding env st query
  if r.1 = [] then (none, r.2.1, r.2.2)
  else if env.storeQueryFails then (none, r.2.1, r.2.2)
  else
    (some (collectionQuery env.dist r.2.1.collection (r.1.headD []) n_results),
     r.2.1, r.2.2)

/-- The distance-to-similarity conversion of `get_semantic_context`
(ai_service.py 441): `similarity = 1 - (distance / 2)`. -/
def similarity (distance : ℚ) : ℚ := 1 - distance / 2

/-- The scored result list assembled by `get_semantic_context`
(ai_service.py 429-446): each search answer together with its similarity. -/
def scoredResults (rs : List SearchEntry) : List (String × ChunkMetadata × ℚ × ℚ) :=
  rs.map fun e => (e.1, e.2.1, e.2.2, similarity e.2.2)

/-! ## Fingerprint and Index Manager —
`AIAssistantPanel.get_screenplay_hash` (ai_assistant.py 960-989),
`AIAssistantPanel.process_screenplay_embeddings_sync` (1033-1082) and
`AIAssistantPanel.ensure_embeddings_up_to_date` (991-1031). -/

/-- The content-accumulation loop of `get_screenplay_hash`
(ai_assistant.py 971-975): append `line.text` for the first 50 lines,
stopping early once more than 1000 characters were gathered. -/
def hashContentLoop : List Line → Nat → String → String
  | [], _, content => content
  | l :: ls, i, content =>
      let content1 := if i < 50 then content ++ l.text else content
      if content1.length > 1000 then content1
      else hashContentLoop ls (i + 1) content1

/-- `AIAssistantPanel.get_screenplay_hash`: hash of the gathered prefix
content concatenated with `str(len(screenplay.lines))`. -/
def get_screenplay_hash (h : String → HashV) (sp : Screenplay) : HashV :=
  h (hashContentLoop sp 0 "" ++ Nat.repr sp.length)

/-- `AIAssistantPanel.process_screenplay_embeddings_sync`: clear the stored
embeddings and the context cache, store fresh embeddings, and set
`embeddings_initialized` according to the outcome. -/
def process_screenplay_embeddings_sync (env : Env) (pst : PanelState)
    (sp : Screenplay) : Bool × PanelState × Calls :=
  let cleared := clear_embeddings pst.service
  let st1 := clear_context_cache cleared.1
  let r := store_screenplay_embeddings env st1 sp
  (r.1,
   { pst with service := r.2.1, embeddings_initialized := r.1 },
   { embedCalls := r.2.2.embedCalls,
     indexWrites := cleared.2 + r.2.2.indexWrites })

/-- `AIAssistantPanel.ensure_embeddings_up_to_date`: compare the snapshot
fingerprint with the stored one; on a match return success immediately
(zero external calls), otherwise rebuild and, on success, store the new
fingerprint.  The argument `sp` is the snapshot delivered by
`get_current_screenplay` (`none` when no document is open). -/
def ensure_embeddings_up_to_date (env : Env) (pst : PanelState)
    (sp : Option Screenplay) : Bool × PanelState × Calls :=
  match sp with
  | none => (false, pst, {})
  | some sp =>
      let current_hash := get_screenplay_hash env.pyhash sp
      if some current_hash = pst.current_screenplay_hash then
        (true,
         { pst with service := update_screenplay_hash pst.service current_hash },
         {})
      else
        let r := process_screenplay_embeddings_sync env pst sp
        if r.1 then
          (true,
           { r.2.1 with
             current_screenplay_hash := some current_hash
             service := update_screenplay_hash r.2.1.service current_hash },
           r.2.2)
        else (false, r.2.1, r.2.2)

/-! ## Concrete sample values

A concrete 64-bit string hash, environments and screenplays used to
instantiate the theorems on closed inputs. -/

/-- A concrete deterministic 64-bit string hash (a 31-multiplier fold),
standing in for one possible seeding of Python's process-seeded `hash`. -/
def djb (s : String) : Nat :=
  (s.data.foldl (fun acc c => (acc * 31 + c.toNat) % hashRange) 5381) % hashRange

/-- `djb` packaged into the 64-bit hash range. -/
def djbHash (s : String) : HashV :=
  ⟨djb s, Nat.mod_lt _ (by norm_num [hashRange])⟩

/-- A gateway that answers every batch with one unit vector per text. -/
def goodEmbed : List String → Option (List Vec) :=
  fun texts => some (texts.map fun _ => [1])

/-- A distance metric that reads the stored vector's first coordinate. -/
def headDist : Vec → Vec → ℚ := fun _ v => v.headD 0

/-- Environment in which every external call succeeds. -/
def envOK : Env := ⟨djbHash, goodEmbed, headDist, false⟩

/-- Environment in which the embedding endpoint fails. -/
def envEmbedFail : Env := ⟨djbHash, fun _ => none, headDist, false⟩

/-- Environment in which `collection.query` raises. -/
def envStoreFail : Env := ⟨djbHash, goodEmbed, headDist, true⟩

/-- An `ACTION` line that ends its element. -/
def actionLine (t : String) : Line := ⟨LineType.action, true, t⟩

/-- A screenplay with no scene headings and well over 100 characters of
non-whitespace text. -/
def spBig : Screenplay :=
  [actionLine "The quick brown fox jumps over the lazy dog near the river bank at dawn today.",
   actionLine "A storm gathers over the hills while the town sleeps quietly below the ridge line."]

/-- A screenplay with two lines but under 100 characters of text. -/
def spSmall : Screenplay := [actionLine "short", actionLine "text"]

/-- A panel state holding a previously built index: one stored chunk, a
stored fingerprint (that of `spSmall`) and `embeddings_initialized`. -/
def pstPrior : PanelState :=
  { service := { collection := [⟨"old", [1], "olddoc", {}⟩] }
    embeddings_initialized := true
    current_screenplay_hash := some (get_screenplay_hash djbHash spSmall) }

/-- A 51-line screenplay: 50 identical lines and the line `"b"`. -/
def spTailB : Screenplay := List.replicate 50 (actionLine "a") ++ [actionLine "b"]

/-- A 51-line screenplay: the same 50 lines, then the line `"c"`. -/
def spTailC : Screenplay := List.replicate 50 (actionLine "a") ++ [actionLine "c"]

/-- A service state holding two stored chunks at distances 2 and 1 from
every query (under `headDist`). -/
def stColl : AIServiceState :=
  { collection := [⟨"id1", [2], "doc1", {}⟩, ⟨"id2", [1], "doc2", {}⟩] }

/-! ## Supporting lemmas -/

/-- `getOrComputeQueryEmbedding` only touches the query cache; the stored
collection is unchanged. -/
theorem getOrCompute_collection (env : Env) (st : AIServiceState) (q : String) :
    (getOrComputeQueryEmbedding env st q).2.1.collection = st.collection := by
  simp only [getOrComputeQueryEmbedding]
  rcases cacheLookup st.query_embedding_cache (env.pyhash q) with _ | v
  · simp only
    split <;> rfl
  · rfl

/-- A successful `search_similar_scenes` answer is a `collectionQuery`
answer over the service's collection. -/
theorem search_success_form (env : Env) (st : AIServiceState) (q : String)
    (k : Nat) (rs : List SearchEntry)
    (h : (search_similar_scenes env st q k).1 = some rs) :
    rs = collectionQuery env.dist
        (getOrComputeQueryEmbedding env st q).2.1.collection
        ((getOrComputeQueryEmbedding env st q).1.headD []) k := by
  simp only [search_similar_scenes] at h
  split at h
  · exact absurd h (by simp)
  · split at h
    · exact absurd h (by simp)
    · exact (Option.some.injEq _ _ ▸ h).symm

/-- `similarity` is antitone. -/
theorem similarity_antitone {a b : ℚ} (h : a ≤ b) : similarity b ≤ similarity a := by
  simp only [similarity]
  linarith

/-- C6. Per result, the similarity score returned by
`get_semantic_context` is exactly `1 - distance / 2`, and on the declared
cosine-distance range `[0, 2]` this value lies in `[0, 1]`. -/
theorem similarity_normalization_and_domain :
    (∀ rs : List SearchEntry,
       (scoredResults rs).map (fun e => e.2.2.2) = rs.map (fun e => 1 - e.2.2 / 2)) ∧
    (∀ d : ℚ, 0 ≤ d → d ≤ 2 → 0 ≤ similarity d ∧ similarity d ≤ 1) := by
  constructor
  · intro rs
    simp only [scoredResults, similarity, List.map_map]
    rfl
  · intro d h0 h2
    constructor
    · simp only [similarity]; linarith
    · simp only [similarity]; linarith

/-- Witness for C6 at the distance 1 and a one-entry result list. -/
theorem similarity_normalization_witness :
    ((scoredResults [("doc", {}, 1)]).map (fun e => e.2.2.2) =
      [(("doc" : String), ({} : ChunkMetadata), (1 : ℚ))].map (fun e => 1 - e.2.2 / 2)) ∧
    (0 ≤ similarity 1 ∧ similarity 1 ≤ 1) :=
  ⟨similarity_normalization_and_domain.1 [("doc", {}, 1)],
   similarity_normalization_and_domain.2 1 (by norm_num) (by norm_num)⟩

/-- C5. Any successful retrieval answer, once scored, has at most
`n_results` entries and carries non-increasing similarity scores. -/
theorem bounded_ordered_results (env : Env) (st : AIServiceState) (q : String)
    (k : Nat) (rs : List SearchEntry)
    (h : (search_similar_scenes env st q k).1 = some rs) :
    (scoredResults rs).length ≤ k ∧
    (scoredResults rs).Pairwise (fun a b => b.2.2.2 ≤ a.2.2.2) := by
  rw [search_success_form env st q k rs h]
  constructor
  · simp only [scoredResults, List.length_map, collectionQuery]
    exact (List.length_take_le _ _)
  · have hsort :
        List.Pairwise distLE
          (List.insertionSort distLE
            ((getOrComputeQueryEmbedding env st q).2.1.collection.map fun it =>
              (it.document, it.metadata, env.dist
                ((getOrComputeQueryEmbedding env st q).1.headD []) it.embedding))) :=
      List.sorted_insertionSort distLE _
    have htake : List.Pairwise distLE
        (collectionQuery env.dist (getOrComputeQueryEmbedding env st q).2.1.collection
          ((getOrComputeQueryEmbedding env st q).1.headD []) k) :=
      List.Pairwise.sublist (List.take_sublist _ _) hsort
    exact List.pairwise_map.mpr (htake.imp fun hab => similarity_antitone hab)

/-- Witness for C5: a concrete two-chunk collection queried successfully. -/
theorem bounded_ordered_results_witness :
    (scoredResults [("doc2", {}, 1), ("doc1", {}, 2)]).length ≤ 2 ∧
    (scoredResults [("doc2", {}, 1), ("doc1", {}, 2)]).Pairwise
      (fun a b => b.2.2.2 ≤ a.2.2.2) :=
  bounded_ordered_results envOK stColl "x" 2 [("doc2", {}, 1), ("doc1", {}, 2)]
    (by decide)

/-- On a cache miss with a successful gateway call, `search_similar_scenes`
computes and caches the embedding: one gateway call, and the new state
maps the query hash to the fresh embedding list. -/
theorem search_miss_caches (env : Env) (st : AIServiceState) (q : String)
    (k : Nat) (vs : List Vec)
    (hmiss : cacheLookup st.query_embedding_cache (env.pyhash q) = none)
    (hok : env.embedFn [q] = some vs) (hne : vs ≠ []) :
    (search_similar_scenes env st q k).2.1 =
      { st with query_embedding_cache :=
          (env.pyhash q, vs) :: st.query_embedding_cache } ∧
    (search_similar_scenes env st q k).2.2 = 1 := by
  have hembed : create_embeddings env [q] = vs := by
    simp [create_embeddings, hok]
  have hget : getOrComputeQueryEmbedding env st q =
      (vs, { st with query_embedding_cache :=
          (env.pyhash q, vs) :: st.query_embedding_cache }, 1) := by
    simp only [getOrComputeQueryEmbedding, hmiss, hembed]
    rw [if_neg hne]
  simp only [search_similar_scenes, hget]
  split
  · exact ⟨rfl, rfl⟩
  · split
    · exact ⟨rfl, rfl⟩
    · exact ⟨rfl, rfl⟩

/-- With the embedding list for `q` in the cache, `search_similar_scenes`
issues zero gateway calls and leaves the state unchanged. -/
theorem search_hit_no_calls (env : Env) (st : AIServiceState) (q : String)
    (k : Nat) (vs : List Vec)
    (hhit : cacheLookup st.query_embedding_cache (env.pyhash q) = some vs) :
    (search_similar_scenes env st q k).2.1 = st ∧
    (search_similar_scenes env st q k).2.2 = 0 := by
  have hget : getOrComputeQueryEmbedding env st q = (vs, st, 0) := by
    simp [getOrComputeQueryEmbedding, hhit]
  simp only [search_similar_scenes, hget]
  split
  · exact ⟨rfl, rfl⟩
  · split
    · exact ⟨rfl, rfl⟩
    · exact ⟨rfl, rfl⟩

/-- C4. Searching twice with the same exact query string (fresh in the
cache, gateway succeeding) issues exactly one Embedding Gateway call on
the first search and zero on the second; the second search reads the
vector from the cache and ends in the same state. -/
theorem query_cache_hit (env : Env) (st : AIServiceState) (q : String)
    (k : Nat) (vs : List Vec)
    (hmiss : cacheLookup st.query_embedding_cache (env.pyhash q) = none)
    (hok : env.embedFn [q] = some vs) (hne : vs ≠ []) :
    (search_similar_scenes env st q k).2.2 = 1 ∧
    (getOrComputeQueryEmbedding env (search_similar_scenes env st q k).2.1 q).1 = vs ∧
    (search_similar_scenes env (search_similar_scenes env st q k).2.1 q k).2.2 = 0 := by
  obtain ⟨hst, hcalls⟩ := search_miss_caches env st q k vs hmiss hok hne
  have hhit : cacheLookup (search_similar_scenes env st q k).2.1.query_embedding_cache
      (env.pyhash q) = some vs := by
    rw [hst]
    simp [cacheLookup]
  refine ⟨hcalls, ?_, (search_hit_no_calls env _ q k vs hhit).2⟩
  simp [getOrComputeQueryEmbedding, hhit]

/-- Witness for C4: the query `"hello"` against a fresh service state. -/
theorem query_cache_hit_witness :
    (search_similar_scenes envOK {} "hello" 1).2.2 = 1 ∧
    (getOrComputeQueryEmbedding envOK (search_similar_scenes envOK {} "hello" 1).2.1 "hello").1 = [[1]] ∧
    (search_similar_scenes envOK (search_similar_scenes envOK {} "hello" 1).2.1 "hello" 1).2.2 = 0 :=
  query_cache_hit envOK {} "hello" 1 [[1]] (by decide) (by decide) (by decide)

/-- C10. On a cache miss where the embedding succeeds but the index query
raises, the search reports failure (`none`) yet keeps the freshly cached
embedding, so retrying the same query makes zero further gateway calls. -/
theorem cache_retained_on_store_failure (env : Env) (st : AIServiceState)
    (q : String) (k : Nat) (vs : List Vec)
    (hmiss : cacheLookup st.query_embedding_cache (env.pyhash q) = none)
    (hok : env.embedFn [q] = some vs) (hne : vs ≠ [])
    (hfail : env.storeQueryFails = true) :
    (search_similar_scenes env st q k).1 = none ∧
    (search_similar_scenes env st q k).2.2 = 1 ∧
    cacheLookup (search_similar_scenes env st q k).2.1.query_embedding_cache
      (env.pyhash q) = some vs ∧
    (search_similar_scenes env (search_similar_scenes env st q k).2.1 q k).2.2 = 0 := by
  obtain ⟨hst, hcalls⟩ := search_miss_caches env st q k vs hmiss hok hne
  have hhit : cacheLookup (search_similar_scenes env st q k).2.1.query_embedding_cache
      (env.pyhash q) = some vs := by
    rw [hst]
    simp [cacheLookup]
  refine ⟨?_, hcalls, hhit, (search_hit_no_calls env _ q k vs hhit).2⟩
  have hembed : create_embeddings env [q] = vs := by
    simp [create_embeddings, hok]
  have hget : getOrComputeQueryEmbedding env st q =
      (vs, { st with query_embedding_cache :=
          (env.pyhash q, vs) :: st.query_embedding_cache }, 1) := by
    simp only [getOrComputeQueryEmbedding, hmiss, hembed]
    rw [if_neg hne]
  simp [search_similar_scenes, hget, hne, hfail]

/-- Witness for C10: store failure on `"hello"`, then a retry. -/
theorem cache_retained_on_store_failure_witness :
    (search_similar_scenes envStoreFail {} "hello" 1).1 = none ∧
    (search_similar_scenes envStoreFail {} "hello" 1).2.2 = 1 ∧
    cacheLookup (search_similar_scenes envStoreFail {} "hello" 1).2.1.query_embedding_cache
      (envStoreFail.pyhash "hello") = some [[1]] ∧
    (search_similar_scenes envStoreFail
      (search_similar_scenes envStoreFail {} "hello" 1).2.1 "hello" 1).2.2 = 0 :=
  cache_retained_on_store_failure envStoreFail {} "hello" 1 [[1]]
    (by decide) (by decide) (by decide) (by decide)

/-- Once the line index reaches 50, the content loop of
`get_screenplay_hash` never adds anything. -/
theorem hashContentLoop_from50 (ls : List Line) :
    ∀ (i : Nat) (content : String), 50 ≤ i →
      hashContentLoop ls i content = content := by
  induction ls with
  | nil => intro i content _; rfl
  | cons l ls ih =>
      intro i content hi
      simp only [hashContentLoop]
      rw [if_neg (Nat.not_lt.mpr hi)]
      split
      · rfl
      · exact ih (i + 1) content (by omega)

/-- The content loop of `get_screenplay_hash` reads only the text of the
lines up to index 50. -/
theorem hashContentLoop_take_eq (ls1 : List Line) :
    ∀ (ls2 : List Line) (i : Nat) (content : String),
      (ls1.take (50 - i)).map Line.text = (ls2.take (50 - i)).map Line.text →
      hashContentLoop ls1 i content = hashContentLoop ls2 i content := by
  induction ls1 with
  | nil =>
      intro ls2 i content h
      rcases Nat.eq_zero_or_pos (50 - i) with h50 | h50
      · have hi : 50 ≤ i := by omega
        rw [hashContentLoop_from50 _ _ _ hi, hashContentLoop_from50 _ _ _ hi]
      · cases ls2 with
        | nil => rfl
        | cons b bs =>
            rw [List.take_nil] at h
            rw [(by omega : 50 - i = (50 - i - 1) + 1), List.take_succ_cons] at h
            simp at h
  | cons a as ih =>
      intro ls2 i content h
      rcases Nat.eq_zero_or_pos (50 - i) with h50 | h50
      · have hi : 50 ≤ i := by omega
        rw [hashContentLoop_from50 _ _ _ hi, hashContentLoop_from50 _ _ _ hi]
      · cases ls2 with
        | nil =>
            rw [List.take_nil] at h
            rw [(by omega : 50 - i = (50 - i - 1) + 1), List.take_succ_cons] at h
            simp at h
        | cons b bs =>
            rw [(by omega : 50 - i = (50 - i - 1) + 1), List.take_succ_cons,
              List.take_succ_cons] at h
            simp only [List.map_cons, List.cons.injEq] at h
            obtain ⟨hab, hrest⟩ := h
            simp only [hashContentLoop, hab]
            split
            · split
              · rfl
              · apply ih
                rw [(by omega : 50 - (i + 1) = 50 - i - 1)]
                exact hrest
            · exact absurd (by omega : i < 50) (by assumption)

/-- C3. The fingerprint reads only the text of the first 50 lines plus the
total line count: two snapshots agreeing there get equal fingerprints,
whatever their content beyond line 50. -/
theorem fingerprint_stability (h : String → HashV) (sp1 sp2 : Screenplay)
    (htext : (sp1.take 50).map Line.text = (sp2.take 50).map Line.text)
    (hlen : sp1.length = sp2.length) :
    get_screenplay_hash h sp1 = get_screenplay_hash h sp2 := by
  unfold get_screenplay_hash
  rw [hashContentLoop_take_eq sp1 sp2 0 "" (by simpa using htext), hlen]

/-- Witness for C3: two 51-line screenplays that differ only in line 51. -/
theorem fingerprint_stability_witness :
    get_screenplay_hash djbHash spTailB = get_screenplay_hash djbHash spTailC :=
  fingerprint_stability djbHash spTailB spTailC (by decide) (by decide)

/-- C8 counterexample. A fresh panel whose only build attempt failed (so
the index was never successfully built) is "not ready"; yet a search in
that state does not return the code's failure marker `none` — it returns
`some []`, the very value of a successful search with zero matches, so the
two situations are not distinguishable. -/
theorem index_unavailable_counterexample :
    (ensure_embeddings_up_to_date envEmbedFail {} (some spSmall)).1 = false ∧
    (ensure_embeddings_up_to_date envEmbedFail {} (some spSmall)).2.1.embeddings_initialized = false ∧
    (search_similar_scenes envOK
      (ensure_embeddings_up_to_date envEmbedFail {} (some spSmall)).2.1.service
      "weather" 2).1 = some [] := by
  decide

/-- C8 amended. The failure marker `none` arises exactly from raised
store/gateway calls; a never-built or failure-cleared index is an *empty*
collection, and a search over it succeeds with the zero-match answer
`some []` — indistinguishable from "nothing relevant". -/
theorem index_unavailable_amended :
    (∀ (env : Env) (st : AIServiceState) (q : String) (k : Nat),
       env.storeQueryFails = true → (search_similar_scenes env st q k).1 = none) ∧
    (∀ (env : Env) (st : AIServiceState) (q : String) (k : Nat)
       (rs : List SearchEntry),
       env.storeQueryFails = false → st.collection = [] →
       (search_similar_scenes env st q k).1 = some rs → rs = []) := by
  constructor
  · intro env st q k hf
    simp only [search_similar_scenes]
    split
    · rfl
    · simp [hf]
  · intro env st q k rs hf hcoll hres
    have hform := search_success_form env st q k rs hres
    rw [getOrCompute_collection, hcoll] at hform
    simpa [collectionQuery] using hform

/-- Witness for C8 amended: a raising store yields `none`; an empty
collection yields the zero-match answer. -/
theorem index_unavailable_amended_witness :
    (search_similar_scenes envStoreFail {} "q" 2).1 = none ∧
    (([] : List SearchEntry) = []) :=
  ⟨index_unavailable_amended.1 envStoreFail {} "q" 2 (by decide),
   index_unavailable_amended.2 envOK {} "q" 2 [] (by decide) (by decide) (by decide)⟩

/-- Every function from strings into the 64-bit hash range collides on
some pair of distinct strings (pigeonhole: infinitely many strings, a
finite range).  This is why keying the query cache by `hash(query)` cannot
realize exact-string semantics for any seeding of Python's `hash`. -/
theorem pyhash_collision_exists (f : String → HashV) :
    ∃ q1 q2 : String, q1 ≠ q2 ∧ f q1 = f q2 := by
  have hinf : Infinite String := by
    apply Infinite.of_injective (fun n : Nat => String.mk (List.replicate n 'a'))
    intro m n hmn
    have hdata : List.replicate m 'a' = List.replicate n 'a' :=
      congrArg String.data hmn
    simpa using congrArg List.length hdata
  exact Finite.exists_ne_map_eq_of_infinite f

/-- C9 counterexample. The claim — formalized: a cache lookup for a query
`q1` distinct from the cached query `q2` always misses, so the embedding
is recomputed (one gateway call) — is false: under the concrete 64-bit
hash `djbHash` the distinct strings `"Aa"` and `"BB"` collide, and the
lookup for `"Aa"` returns the vector cached for `"BB"` with zero gateway
calls. -/
theorem exact_key_counterexample :
    ¬ (∀ (env : Env) (st : AIServiceState) (q1 q2 : String) (v : List Vec),
        q1 ≠ q2 →
        (getOrComputeQueryEmbedding env
          { st with query_embedding_cache := [(env.pyhash q2, v)] } q1).2.2 = 1) := by
  intro hclaim
  have h := hclaim envOK {} "Aa" "BB" [[7]] (by decide)
  exact absurd h (by decide)

/-- C9 amended. The cache is keyed by the 64-bit `hash` of the raw query
string: equal strings always reuse the same entry with zero gateway calls;
but whatever the hash function, some pair of distinct query strings
collides, and then the lookup for one returns the vector cached for the
other (zero gateway calls) — exact-string key semantics does not hold. -/
theorem exact_key_amended :
    (∀ (env : Env) (st : AIServiceState) (q : String) (v : List Vec),
       cacheLookup st.query_embedding_cache (env.pyhash q) = some v →
       getOrComputeQueryEmbedding env st q = (v, st, 0)) ∧
    (∀ (env : Env) (v : List Vec),
       ∃ q1 q2 : String, q1 ≠ q2 ∧
         (getOrComputeQueryEmbedding env
           { query_embedding_cache := [(env.pyhash q2, v)] } q1).1 = v ∧
         (getOrComputeQueryEmbedding env
           { query_embedding_cache := [(env.pyhash q2, v)] } q1).2.2 = 0) := by
  constructor
  · intro env st q v hhit
    simp [getOrComputeQueryEmbedding, hhit]
  · intro env v
    obtain ⟨q1, q2, hne, hcoll⟩ := pyhash_collision_exists env.pyhash
    refine ⟨q1, q2, hne, ?_, ?_⟩ <;>
      simp [getOrComputeQueryEmbedding, cacheLookup, hcoll]

/-- Witness for C9 amended: a concrete cache hit through the first part of
the theorem. -/
theorem exact_key_amended_witness :
    getOrComputeQueryEmbedding envOK
      { query_embedding_cache := [(envOK.pyhash "q", [[3]])] } "q" =
    ([[3]], { query_embedding_cache := [(envOK.pyhash "q", [[3]])] }, 0) :=
  exact_key_amended.1 envOK
    { query_embedding_cache := [(envOK.pyhash "q", [[3]])] } "q" [[3]] (by decide)

/-- After any successful `ensure_embeddings_up_to_date`, the stored panel
fingerprint equals the snapshot's fingerprint. -/
theorem ensure_success_hash (env : Env) (pst : PanelState) (sp : Screenplay)
    (h : (ensure_embeddings_up_to_date env pst (some sp)).1 = true) :
    (ensure_embeddings_up_to_date env pst (some sp)).2.1.current_screenplay_hash =
      some (get_screenplay_hash env.pyhash sp) := by
  by_cases hc : some (get_screenplay_hash env.pyhash sp) = pst.current_screenplay_hash
  · simp only [ensure_embeddings_up_to_date]
    rw [if_pos hc]
    exact hc.symm
  · by_cases hp : (process_screenplay_embeddings_sync env pst sp).1 = true
    · simp only [ensure_embeddings_up_to_date]
      rw [if_neg hc, if_pos hp]
    · simp only [ensure_embeddings_up_to_date] at h
      rw [if_neg hc, if_neg hp] at h
      exact absurd h (by simp)

/-- C1. If `ensure_embeddings_up_to_date` succeeds on a snapshot, calling
it again on the unchanged snapshot succeeds with zero Embedding Gateway
calls and zero Vector Index writes. -/
theorem idempotent_rebuild (env : Env) (pst : PanelState) (sp : Screenplay)
    (h : (ensure_embeddings_up_to_date env pst (some sp)).1 = true) :
    (ensure_embeddings_up_to_date env
      (ensure_embeddings_up_to_date env pst (some sp)).2.1 (some sp)).1 = true ∧
    (ensure_embeddings_up_to_date env
      (ensure_embeddings_up_to_date env pst (some sp)).2.1 (some sp)).2.2 =
      { embedCalls := 0, indexWrites := 0 } := by
  have hh := ensure_success_hash env pst sp h
  set E := ensure_embeddings_up_to_date env pst (some sp) with hE
  constructor <;>
    · simp only [ensure_embeddings_up_to_date]
      rw [hh, if_pos rfl]

set_option maxRecDepth 100000 in
/-- Witness for C1: a successful first build of `spBig` from a fresh
panel, then the second call. -/
theorem idempotent_rebuild_witness :
    (ensure_embeddings_up_to_date envOK
      (ensure_embeddings_up_to_date envOK {} (some spBig)).2.1 (some spBig)).1 = true ∧
    (ensure_embeddings_up_to_date envOK
      (ensure_embeddings_up_to_date envOK {} (some spBig)).2.1 (some spBig)).2.2 =
      { embedCalls := 0, indexWrites := 0 } :=
  idempotent_rebuild envOK {} spBig (by decide)

/-- When the gateway fails on the chunk batch,
`store_screenplay_embeddings` reports failure after one gateway call and
leaves its own state argument unchanged. -/
theorem store_embed_fail (env : Env) (st : AIServiceState) (sp : Screenplay)
    (hlen : ¬ sp.length ≤ 1)
    (htext : ¬ (strip (screenplayTotalText sp)).length < 100)
    (hchunks : chunksForStorage env.pyhash sp ≠ [])
    (hembed : env.embedFn ((chunksForStorage env.pyhash sp).map Chunk.text) = none) :
    store_screenplay_embeddings env st sp = (false, st, { embedCalls := 1 }) := by
  have htexts : (chunksForStorage env.pyhash sp).map Chunk.text ≠ [] := by
    simpa using hchunks
  have hemb : create_embeddings env ((chunksForStorage env.pyhash sp).map Chunk.text) = [] := by
    simp [create_embeddings, htexts, hembed]
  simp only [store_screenplay_embeddings]
  rw [if_neg hlen, if_neg htext, if_neg hchunks, hemb, if_pos rfl]

/-- C2 amended. When the fingerprint changed and the embedding step then
fails, the rebuild does NOT leave the previously stored index intact: the
collection was already cleared (one delete write) and stays empty; the
panel reports failure, drops `embeddings_initialized`, and keeps the old
stored fingerprint (so a later call retries). -/
theorem rebuild_failure_amended (env : Env) (pst : PanelState) (sp : Screenplay)
    (hlen : ¬ sp.length ≤ 1)
    (htext : ¬ (strip (screenplayTotalText sp)).length < 100)
    (hchunks : chunksForStorage env.pyhash sp ≠ [])
    (hembed : env.embedFn ((chunksForStorage env.pyhash sp).map Chunk.text) = none)
    (hchanged : ¬ some (get_screenplay_hash env.pyhash sp) = pst.current_screenplay_hash)
    (hprior : pst.service.collection ≠ []) :
    (ensure_embeddings_up_to_date env pst (some sp)).1 = false ∧
    (ensure_embeddings_up_to_date env pst (some sp)).2.1.service.collection = [] ∧
    (ensure_embeddings_up_to_date env pst (some sp)).2.1.embeddings_initialized = false ∧
    (ensure_embeddings_up_to_date env pst (some sp)).2.1.current_screenplay_hash =
      pst.current_screenplay_hash ∧
    (ensure_embeddings_up_to_date env pst (some sp)).2.2 =
      { embedCalls := 1, indexWrites := 1 } := by
  have hstore := store_embed_fail env
    (clear_context_cache { pst.service with collection := [] }) sp hlen htext hchunks hembed
  have hproc : process_screenplay_embeddings_sync env pst sp =
      (false,
       { pst with
         service := clear_context_cache { pst.service with collection := [] }
         embeddings_initialized := false },
       { embedCalls := 1, indexWrites := 1 }) := by
    simp only [process_screenplay_embeddings_sync, clear_embeddings]
    rw [hstore, if_neg hprior]
    rfl
  have hens : ensure_embeddings_up_to_date env pst (some sp) =
      (false,
       { pst with
         service := clear_context_cache { pst.service with collection := [] }
         embeddings_initialized := false },
       { embedCalls := 1, indexWrites := 1 }) := by
    simp only [ensure_embeddings_up_to_date]
    rw [if_neg hchanged, hproc]
    rfl
  rw [hens]
  exact ⟨rfl, rfl, rfl, rfl, rfl⟩

set_option maxRecDepth 100000 in
/-- C2 counterexample. A panel holding a previously built one-chunk index
sees a changed snapshot; the embedding step fails; yet the prior stored
index contents are gone: the collection ends up empty, refuting the claim
that a failed rebuild leaves the previous index exactly as it was. -/
theorem rebuild_failure_counterexample :
    pstPrior.service.collection = [⟨"old", [1], "olddoc", {}⟩] ∧
    some (get_screenplay_hash envEmbedFail.pyhash spBig) ≠ pstPrior.current_screenplay_hash ∧
    (ensure_embeddings_up_to_date envEmbedFail pstPrior (some spBig)).1 = false ∧
    (ensure_embeddings_up_to_date envEmbedFail pstPrior (some spBig)).2.1.service.collection
      = [] := by
  decide

set_option maxRecDepth 100000 in
/-- Witness for C2 amended: the same scenario through the amended
theorem. -/
theorem rebuild_failure_amended_witness :
    (ensure_embeddings_up_to_date envEmbedFail pstPrior (some spBig)).1 = false ∧
    (ensure_embeddings_up_to_date envEmbedFail pstPrior (some spBig)).2.1.service.collection = [] ∧
    (ensure_embeddings_up_to_date envEmbedFail pstPrior (some spBig)).2.1.embeddings_initialized = false ∧
    (ensure_embeddings_up_to_date envEmbedFail pstPrior (some spBig)).2.1.current_screenplay_hash =
      pstPrior.current_screenplay_hash ∧
    (ensure_embeddings_up_to_date envEmbedFail pstPrior (some spBig)).2.2 =
      { embedCalls := 1, indexWrites := 1 } :=
  rebuild_failure_amended envEmbedFail pstPrior spBig (by decide) (by decide)
    (by decide) (by decide) (by decide) (by decide)

/-- The metadata flag updates of the chunk loop never touch the
`scene_number` and `scene_heading` keys. -/
theorem updateFlags_keeps_scene_keys (lt : LineType) (m : ChunkMetadata) :
    (updateFlags lt m).scene_number = m.scene_number ∧
    (updateFlags lt m).scene_heading = m.scene_heading := by
  simp only [updateFlags]
  split
  · exact ⟨rfl, rfl⟩
  · split
    · exact ⟨rfl, rfl⟩
    · split
      · exact ⟨rfl, rfl⟩
      · exact ⟨rfl, rfl⟩

/-- Over a line list containing no `SCENE`/`LB_LAST` line, the chunk loop
flushes nothing: it only accumulates the line texts and the content flags,
never setting a scene number or heading. -/
theorem chunkLoop_no_heading (h : String → HashV) (ls : List Line) :
    ∀ (i : Nat) (acc : ChunkAcc),
      (∀ l ∈ ls, ¬(l.lt = LineType.scene ∧ l.lbLast = true)) →
      (chunkLoop h ls i acc).chunks = acc.chunks ∧
      (chunkLoop h ls i acc).current_scene_text =
        acc.current_scene_text ++ ls.map Line.text ∧
      (chunkLoop h ls i acc).scene_number = acc.scene_number ∧
      (chunkLoop h ls i acc).current_scene_metadata.scene_number =
        acc.current_scene_metadata.scene_number ∧
      (chunkLoop h ls i acc).current_scene_metadata.scene_heading =
        acc.current_scene_metadata.scene_heading := by
  induction ls with
  | nil => intro i acc _; simp [chunkLoop]
  | cons l ls ih =>
      intro i acc hno
      have hl : ¬(l.lt = LineType.scene ∧ l.lbLast = true) := hno l (by simp)
      have hrest : ∀ x ∈ ls, ¬(x.lt = LineType.scene ∧ x.lbLast = true) :=
        fun x hx => hno x (by simp [hx])
      simp only [chunkLoop, chunkStep]
      rw [if_neg hl]
      obtain ⟨h1, h2, h3, h4, h5⟩ := ih (i + 1)
        { acc with
          current_scene_text := acc.current_scene_text ++ [l.text]
          current_scene_metadata := updateFlags l.lt acc.current_scene_metadata }
        hrest
      refine ⟨h1, ?_, h3, ?_, ?_⟩
      · rw [h2]
        simp
      · rw [h4]
        exact (updateFlags_keeps_scene_keys l.lt acc.current_scene_metadata).1
      · rw [h5]
        exact (updateFlags_keeps_scene_keys l.lt acc.current_scene_metadata).2

/-- A loop state with no finished chunks, non-empty scene text with
non-whitespace content, flushes to exactly one chunk. -/
theorem flushScene_single (h : String → HashV) (acc : ChunkAcc)
    (hacc : acc.chunks = [])
    (hne : ¬ acc.current_scene_text = [])
    (htrim : ¬ strip (joinNL acc.current_scene_text) = "") :
    flushScene h acc =
      [{ text := joinNL acc.current_scene_text
         metadata := acc.current_scene_metadata
         id := chunkId h acc.scene_number (joinNL acc.current_scene_text) }] := by
  simp only [flushScene]
  rw [if_neg hne, if_neg htrim, hacc]
  rfl

set_option maxRecDepth 100000 in
/-- C7 counterexample. `spBig` has zero heading-typed lines and well over
100 non-whitespace characters, so the claim requires one *fallback* chunk
with `sequenceNumber = 1` and a whole-document heading; the code instead
produces its single chunk through the ordinary scene loop, with no
`scene_number` and no `scene_heading` at all in its metadata. -/
theorem fallback_chunking_counterexample :
    spBig.all (fun l => !(l.lt == LineType.scene && l.lbLast)) = true ∧
    100 ≤ (strip (screenplayTotalText spBig)).length ∧
    (chunksForStorage djbHash spBig).map
      (fun c => (c.metadata.scene_number, c.metadata.scene_heading)) =
      [(none, none)] := by
  decide

/-- C7 amended. (a) A document with no `SCENE`/`LB_LAST` line and
non-trivial text yields exactly one chunk through the ordinary scene loop
— covering the whole document, but with no `scene_number` and no
`scene_heading` (the fallback chunk with `scene_number = 1` and heading
`"Entire Screenplay"` is only built when the scene loop yields nothing).
(b) Below the 100-character minimum, `store_screenplay_embeddings` reports
failure before chunking, with zero gateway calls and zero index writes. -/
theorem fallback_chunking_amended :
    (∀ (h : String → HashV) (sp : Screenplay),
       (∀ l ∈ sp, ¬(l.lt = LineType.scene ∧ l.lbLast = true)) →
       sp ≠ [] →
       ¬ strip (joinNL (sp.map Line.text)) = "" →
       (chunksForStorage h sp).map Chunk.text = [joinNL (sp.map Line.text)] ∧
       (chunksForStorage h sp).map (fun c => c.metadata.scene_number) = [none] ∧
       (chunksForStorage h sp).map (fun c => c.metadata.scene_heading) = [none]) ∧
    (∀ (env : Env) (st : AIServiceState) (sp : Screenplay),
       (strip (screenplayTotalText sp)).length < 100 →
       store_screenplay_embeddings env st sp =
         (false, st, { embedCalls := 0, indexWrites := 0 })) := by
  constructor
  · intro h sp hno hne htrim
    obtain ⟨h1, h2, h3, h4, h5⟩ := chunkLoop_no_heading h sp 0 {} hno
    have htext : (chunkLoop h sp 0 {}).current_scene_text = sp.map Line.text := by
      rw [h2]; rfl
    have hjoin : joinNL (chunkLoop h sp 0 {}).current_scene_text =
        joinNL (sp.map Line.text) := by rw [htext]
    have hchunks : chunk_screenplay_scenes h sp =
        [{ text := joinNL (sp.map Line.text)
           metadata := (chunkLoop h sp 0 {}).current_scene_metadata
           id := chunkId h (chunkLoop h sp 0 {}).scene_number
             (joinNL (sp.map Line.text)) }] := by
      unfold chunk_screenplay_scenes
      rw [flushScene_single h _ h1
        (by rw [htext]; simpa using hne) (by rw [hjoin]; exact htrim), hjoin]
    have hfs : chunksForStorage h sp = chunk_screenplay_scenes h sp := by
      unfold chunksForStorage
      rw [hchunks]
      rfl
    rw [hfs, hchunks]
    refine ⟨rfl, ?_, ?_⟩
    · simp only [List.map_cons, List.map_nil]
      rw [h4]
    · simp only [List.map_cons, List.map_nil]
      rw [h5]
  · intro env st sp hsmall
    simp only [store_screenplay_embeddings]
    by_cases hl : sp.length ≤ 1
    · rw [if_pos hl]
    · rw [if_neg hl, if_pos hsmall]

set_option maxRecDepth 100000 in
/-- Witness for C7 amended: part (a) at `spBig`, part (b) at `spSmall`. -/
theorem fallback_chunking_amended_witness :
    ((chunksForStorage djbHash spBig).map Chunk.text = [joinNL (spBig.map Line.text)] ∧
     (chunksForStorage djbHash spBig).map (fun c => c.metadata.scene_number) = [none] ∧
     (chunksForStorage djbHash spBig).map (fun c => c.metadata.scene_heading) = [none]) ∧
    store_screenplay_embeddings envOK {} spSmall =
      (false, {}, { embedCalls := 0, indexWrites := 0 }) :=
  ⟨fallback_chunking_amended.1 djbHash spBig (by decide) (by decide) (by decide),
   fallback_chunking_amended.2 envOK {} spSmall (by decide)⟩

end Trelby
